import Mathlib

/-!
Shallow embedding of the CityData.Org backend (src/server.js) and proofs of
the specification's claims about it.

Conventions of the embedding:
* JavaScript `undefined`/`null` string values are `Option String` (`none`).
* JavaScript `Number(x)` applied to a possibly-missing string is modelled by
  `jsNumber : Option String → Option Int`, where `none` stands for `NaN`
  (the embedding restricts numeric fields to integer-valued numerals).
* A JavaScript `Set` of strings is modelled as a duplicate-free `List String`
  in insertion order (`addName` appends only unseen names), so `.size` is the
  list length and spreading `[...set]` is the list itself.
* External HTTP calls are modelled by outcome values supplied as inputs:
  `FetchOutcome α` is either a thrown error or a parsed body of type `α`.
-/

namespace CityData

/-- Embedding of `categorizeAQI` (src/server.js lines 159-167).
`none` stands for a `null`/`undefined` AQI value. -/
def categorizeAQI : Option Int → String
  | none => "No data"
  | some aqi =>
    if aqi ≤ 50 then "Good"
    else if aqi ≤ 100 then "Moderate"
    else if aqi ≤ 150 then "Unhealthy for Sensitive Groups"
    else if aqi ≤ 200 then "Unhealthy"
    else if aqi ≤ 300 then "Very Unhealthy"
    else "Hazardous"

/-- Severity rank of a category string, used to state monotonicity:
the six value categories in increasing severity. -/
def severity : String → Nat
  | "Good" => 0
  | "Moderate" => 1
  | "Unhealthy for Sensitive Groups" => 2
  | "Unhealthy" => 3
  | "Very Unhealthy" => 4
  | _ => 5

/-- One CSV row as delivered by `csv-parser`: each field is a string when the
column is present, `none` when absent. -/
structure Row where
  City : Option String
  District : Option String
  State : Option String
  Population : Option String
  Area : Option String
deriving DecidableEq

/-- Embedding of `String.prototype.trim()`: drop leading and trailing
whitespace (implemented on the character list so that it evaluates inside
proofs). -/
def jsTrim (s : String) : String :=
  ⟨((s.data.dropWhile Char.isWhitespace).reverse.dropWhile
      Char.isWhitespace).reverse⟩

/-- Embedding of `String.prototype.toLowerCase()` on the character list. -/
def jsToLower (s : String) : String :=
  ⟨s.data.map Char.toLower⟩

/-- Embedding of `s.split(",")[0]`: the characters before the first comma
(the whole string when it has no comma). -/
def splitFirstSegment (s : String) : String :=
  ⟨s.data.takeWhile (· ≠ ',')⟩

/-- Parse a digit sequence, accumulating; `none` on a non-digit. -/
def charsToNatAux : List Char → Nat → Option Nat
  | [], acc => some acc
  | c :: cs, acc =>
    if c.isDigit then charsToNatAux cs (acc * 10 + (c.toNat - 48)) else none

/-- Parse an optionally signed decimal integer numeral, `none` otherwise. -/
def jsStringToInt? (s : String) : Option Int :=
  match s.data with
  | [] => none
  | '-' :: cs =>
    if cs = [] then none else (charsToNatAux cs 0).map (fun n => -(n : Int))
  | '+' :: cs =>
    if cs = [] then none else (charsToNatAux cs 0).map (fun n => (n : Int))
  | cs => (charsToNatAux cs 0).map (fun n => (n : Int))

/-- Embedding of JavaScript `Number(x)` on a string-or-undefined input,
restricted to integer-valued numerals. `none` in the result stands for `NaN`:
`Number(undefined)` is `NaN`, `Number("")` and whitespace-only strings are `0`,
a non-numeric string is `NaN`. -/
def jsNumber : Option String → Option Int
  | none => none
  | some s => if jsTrim s = "" then some 0 else jsStringToInt? (jsTrim s)

/-- Embedding of `row.Field?.trim().toLowerCase()`: `undefined` stays
`undefined`, otherwise trim and lowercase. -/
def normField : Option String → Option String
  | none => none
  | some s => some (jsToLower (jsTrim s))

/-- Which field of a row the dataset lookup matched on. -/
inductive MatchedOn where
  | city
  | district
  | state
deriving DecidableEq

/-- Result of the dataset lookup (the object resolved by `getLocationStats`,
src/server.js lines 135-140). `name` is the raw (unnormalized) field value. -/
structure LocationStats where
  population : Int
  area : Int
  matchedOn : MatchedOn
  name : Option String
deriving DecidableEq

/-- Embedding of the per-row match test of `getLocationStats`
(src/server.js lines 113-129): the normalized City field is compared first,
then District, then State; the first equal field wins. -/
def matchRow (query : String) (r : Row) : Option (MatchedOn × Option String) :=
  if normField r.City = some query then some (.city, r.City)
  else if normField r.District = some query then some (.district, r.District)
  else if normField r.State = some query then some (.state, r.State)
  else none

/-- Embedding of the resolved object built at src/server.js lines 135-140:
`Number(row.Population) || 0` and `Number(row.Area) || 0` (`NaN` falls back
to `0`; a parsed `0` is also `0`). -/
def statsOfMatch (r : Row) (m : MatchedOn × Option String) : LocationStats :=
  { population := (jsNumber r.Population).getD 0
    area := (jsNumber r.Area).getD 0
    matchedOn := m.1
    name := m.2 }

/-- One event of the CSV row stream: a parsed row, or a parse failure
(`csv-parser` emits an `error` event, which rejects the promise). -/
inductive StreamItem where
  | row (r : Row)
  | malformed (msg : String)
deriving DecidableEq

/-- The two failure modes of `getLocationStats`: end of stream with no match
(src/server.js line 146), or a stream error (line 150). -/
inductive LookupError where
  | noLocationData
  | streamError (msg : String)
deriving DecidableEq

/-- Embedding of the stream consumption of `getLocationStats`
(src/server.js lines 110-150): items are handled in order; a matching row
resolves immediately (`stream.destroy()`, so nothing after it is handled);
a malformed item before any match rejects; end of stream with no match
rejects with the no-location-data error. -/
def runStream (query : String) : List StreamItem → Except LookupError LocationStats
  | [] => .error .noLocationData
  | .malformed msg :: _ => .error (.streamError msg)
  | .row r :: rest =>
    match matchRow query r with
    | some m => .ok (statsOfMatch r m)
    | none => runStream query rest

/-- Number of stream items `getLocationStats` consumes before it settles
(resolves or rejects); items after that point are never processed. -/
def rowsConsumed (query : String) : List StreamItem → Nat
  | [] => 0
  | .malformed _ :: _ => 1
  | .row r :: rest =>
    match matchRow query r with
    | some _ => 1
    | none => 1 + rowsConsumed query rest

/-- Embedding of `getLocationStats` (src/server.js lines 100-152) on a
well-formed dataset file, given as its list of rows: the query is trimmed and
lowercased once, then the rows are scanned in file order. -/
def getLocationStats (rows : List Row) (searchValue : String) :
    Except LookupError LocationStats :=
  runStream (jsToLower (jsTrim searchValue)) (rows.map .row)

/-- Outcome of one external fetch-and-parse, supplied as an input to the
embedding: the call threw (network error, or `safeFetch` raising on a non-ok
HTTP status, or a JSON parse failure), or it produced a parsed body. -/
inductive FetchOutcome (α : Type) where
  | throw (msg : String)
  | ok (body : α)
deriving DecidableEq

/-- The six per-pollutant `iaqi.x?.v` values read at src/server.js
lines 196-201 (`none` for an absent pollutant entry). -/
structure IAQIValues where
  pm25 : Option Int
  pm10 : Option Int
  no2 : Option Int
  so2 : Option Int
  o3 : Option Int
  co : Option Int
deriving DecidableEq

/-- `data.data.iaqi || {}` with every entry absent. -/
def emptyIAQI : IAQIValues := ⟨none, none, none, none, none, none⟩

/-- The `data.data` object of a WAQI response as the code reads it. -/
structure WAQIData where
  aqi : Option Int
  iaqi : Option IAQIValues
  dominentpol : Option String
  timeS : Option String
deriving DecidableEq

/-- A parsed WAQI response body: `status` and an optional `data` object. -/
structure WAQIResponse where
  status : String
  data : Option WAQIData
deriving DecidableEq

/-- The current-AQI reading built by `getCurrentAQI`. `pollutants` is a list
of key/value pairs so that the empty object `{}` of the no-data reading is
distinguishable from a populated pollutant map. -/
structure AQIReading where
  aqi : Option Int
  category : String
  pollutants : List (String × Option Int)
  dominentPollutant : Option String
  time : Option String
deriving DecidableEq

/-- The no-data reading returned at src/server.js lines 182-188 and 208-214. -/
def noDataReading : AQIReading :=
  { aqi := none
    category := "No data"
    pollutants := []
    dominentPollutant := none
    time := none }

/-- Embedding of `x || null` on an optional string: an absent or empty
(falsy) string becomes `null`. -/
def jsOrNullStr : Option String → Option String
  | none => none
  | some s => if s = "" then none else some s

/-- Embedding of `getCurrentAQI` (src/server.js lines 172-216): a thrown
fetch, a service-level status other than `"ok"`, or a missing `data` object
all yield the no-data reading; otherwise the reading is assembled from the
response. -/
def getCurrentAQI (outcome : FetchOutcome WAQIResponse) : AQIReading :=
  match outcome with
  | .throw _ => noDataReading
  | .ok resp =>
    if resp.status ≠ "ok" then noDataReading
    else
      match resp.data with
      | none => noDataReading
      | some d =>
        let iaqi := d.iaqi.getD emptyIAQI
        { aqi := d.aqi
          category := categorizeAQI d.aqi
          pollutants := [("pm25", iaqi.pm25), ("pm10", iaqi.pm10),
            ("no2", iaqi.no2), ("so2", iaqi.so2), ("o3", iaqi.o3),
            ("co", iaqi.co)]
          dominentPollutant := jsOrNullStr d.dominentpol
          time := jsOrNullStr d.timeS }

/-- The `hourly` object of an air-quality history response: a `time` array
and an optional `pm2_5` array (entries may be `null`). -/
structure HourlyData where
  time : List String
  pm2_5 : Option (List (Option Int))
deriving DecidableEq

/-- One history point built at src/server.js lines 230-234. -/
structure AQIHistoryPoint where
  timestamp : Option String
  pm25 : Option Int
  aqi : String
deriving DecidableEq

/-- Embedding of `getAQIHistory` (src/server.js lines 221-239): a thrown
fetch, a missing `hourly` object, or a missing `pm2_5` array yield `[]`;
otherwise each hourly PM2.5 value is mapped to a history point whose `aqi`
field applies `categorizeAQI` to the raw PM2.5 value. -/
def getAQIHistory (outcome : FetchOutcome (Option HourlyData)) :
    List AQIHistoryPoint :=
  match outcome with
  | .throw _ => []
  | .ok none => []
  | .ok (some h) =>
    match h.pm2_5 with
    | none => []
    | some vals =>
      vals.mapIdx fun idx pm =>
        { timestamp := h.time[idx]?, pm25 := pm, aqi := categorizeAQI pm }

/-- The combined air-quality section built by `getAQISection`
(src/server.js lines 244-252). -/
structure AQISection where
  currentAQI : AQIReading
  history : List AQIHistoryPoint
deriving DecidableEq

/-- Embedding of `getAQISection` (src/server.js lines 244-252): the two
sub-calls are composed, each already degraded independently. -/
def getAQISection (waqi : FetchOutcome WAQIResponse)
    (hist : FetchOutcome (Option HourlyData)) : AQISection :=
  { currentAQI := getCurrentAQI waqi, history := getAQIHistory hist }

/-- Outcome of one Overpass endpoint attempt (src/server.js lines 48-61):
the fetch or the body parse threw, the HTTP status was non-success
(`!res.ok`, which the code turns into a thrown error), or the attempt
succeeded with a parsed body. -/
inductive AttemptOutcome (α : Type) where
  | throws
  | httpError (status : Nat)
  | success (body : α)
deriving DecidableEq

/-- The error raised when every Overpass endpoint fails
(src/server.js line 63). -/
inductive OverpassError where
  | allEndpointsFailed
deriving DecidableEq

/-- Embedding of `fetchOverpass` (src/server.js lines 46-64) over the list of
per-endpoint outcomes, one per candidate endpoint in list order: any non-success
outcome is caught and the next candidate is tried; the first success is
returned; an empty remainder raises the all-endpoints-failed error. -/
def fetchOverpass {α : Type} : List (AttemptOutcome α) → Except OverpassError α
  | [] => .error .allEndpointsFailed
  | .success body :: _ => .ok body
  | .throws :: rest => fetchOverpass rest
  | .httpError _ :: rest => fetchOverpass rest

/-- Number of endpoints `fetchOverpass` attempts: every candidate up to and
including the first success, or all of them when none succeeds. -/
def overpassAttemptCount {α : Type} : List (AttemptOutcome α) → Nat
  | [] => 0
  | .success _ :: _ => 1
  | .throws :: rest => 1 + overpassAttemptCount rest
  | .httpError _ :: rest => 1 + overpassAttemptCount rest

/-- The OSM tags of one returned element that the tally code reads. -/
structure Tags where
  name : Option String
  amenity : Option String
  railway : Option String
  station : Option String
  publicTransport : Option String
  subway : Option String
  waterway : Option String
deriving DecidableEq

/-- All tags absent. -/
def emptyTags : Tags := ⟨none, none, none, none, none, none, none⟩

/-- One element of an Overpass response; `tags` may be absent. -/
structure Element where
  tags : Option Tags
deriving DecidableEq

/-- Embedding of `el.tags || {}` (src/server.js lines 293 and 348). -/
def tagsOf (el : Element) : Tags := el.tags.getD emptyTags

/-- Embedding of `Set.add` on a set-as-ordered-list of strings: a name
already present is not added again; a new name goes to the end
(JavaScript `Set` iteration order is insertion order). -/
def addName (s : List String) (n : String) : List String :=
  if n ∈ s then s else s ++ [n]

/-- The five per-category name sets built at src/server.js lines 284-290. -/
structure InfraSets where
  hospitals : List String
  schools : List String
  colleges : List String
  railwayStations : List String
  metroStations : List String
deriving DecidableEq

/-- The initial empty sets. -/
def emptyInfra : InfraSets := ⟨[], [], [], [], []⟩

/-- Embedding of the per-element classification body of
`infraData.elements.forEach` (src/server.js lines 292-313): an element whose
`name` tag is absent or the empty string is dropped (`if (!t.name) return;`
— the empty string is falsy in JavaScript); otherwise each of the five
independent conditions may add the name to its category set. -/
def processElement (acc : InfraSets) (el : Element) : InfraSets :=
  let t := tagsOf el
  match t.name with
  | none => acc
  | some n =>
    if n = "" then acc else
    let a1 := if t.amenity = some "hospital" then
        { acc with hospitals := addName acc.hospitals n } else acc
    let a2 := if t.amenity = some "school" then
        { a1 with schools := addName a1.schools n } else a1
    let a3 := if t.amenity = some "college" then
        { a2 with colleges := addName a2.colleges n } else a2
    let a4 := if t.railway = some "station" ∧ t.station ≠ some "subway" then
        { a3 with railwayStations := addName a3.railwayStations n } else a3
    if t.station = some "subway" ∨ t.railway = some "subway_entrance" ∨
        (t.publicTransport = some "station" ∧ t.subway = some "yes") then
      { a4 with metroStations := addName a4.metroStations n } else a4

/-- The infrastructure tally over the returned elements in response order. -/
def infraOf (elements : List Element) : InfraSets :=
  elements.foldl processElement emptyInfra

/-- The `infrastructure` object of the response (src/server.js lines
314-327): per-category counts (`Set.size`) plus the name lists (`[...set]`). -/
structure Infrastructure where
  hospitals : Nat
  schools : Nat
  colleges : Nat
  railwayStations : Nat
  metroStations : Nat
  names : InfraSets
deriving DecidableEq

/-- Embedding of the construction of `infrastructure`
(src/server.js lines 314-327). -/
def infrastructure (elements : List Element) : Infrastructure :=
  let infra := infraOf elements
  { hospitals := infra.hospitals.length
    schools := infra.schools.length
    colleges := infra.colleges.length
    railwayStations := infra.railwayStations.length
    metroStations := infra.metroStations.length
    names := infra }

/-- The two water-body name sets built at src/server.js lines 344-352. -/
structure WaterSets where
  rivers : List String
  others : List String
deriving DecidableEq

/-- Embedding of the per-element body of `waterData.elements.forEach`
(src/server.js lines 347-352): an element whose `name` tag is absent or the
empty string is dropped (`if (!t.name) return;` — the empty string is falsy
in JavaScript); a `waterway=river` element goes to `rivers`, every other
kept element to `others`. -/
def processWaterElement (acc : WaterSets) (el : Element) : WaterSets :=
  let t := tagsOf el
  match t.name with
  | none => acc
  | some n =>
    if n = "" then acc
    else if t.waterway = some "river" then
      { acc with rivers := addName acc.rivers n }
    else { acc with others := addName acc.others n }

/-- The water tally over the returned elements in response order. -/
def waterOf (elements : List Element) : WaterSets :=
  elements.foldl processWaterElement ⟨[], []⟩

/-- One category of the `waterBodies` object: count plus name list. -/
structure WaterCategory where
  count : Nat
  names : List String
deriving DecidableEq

/-- The `waterBodies` object of the response (src/server.js lines 354-357). -/
structure WaterBodies where
  rivers : WaterCategory
  otherWaterBodies : WaterCategory
deriving DecidableEq

/-- Embedding of the construction of `waterBodies`
(src/server.js lines 354-357). -/
def waterBodies (elements : List Element) : WaterBodies :=
  let w := waterOf elements
  { rivers := ⟨w.rivers.length, w.rivers⟩
    otherWaterBodies := ⟨w.others.length, w.others⟩ }

/-- One result object of a Nominatim search: the fields the handler reads.
`lat`/`lon` arrive as strings and are converted with `Number`. -/
structure CityResult where
  display_name : String
  lat : String
  lon : String
deriving DecidableEq

/-- Opaque parsed weather payload (the handler forwards it unchanged). -/
structure WeatherData where
  raw : String
deriving DecidableEq

/-- Opaque parsed Wikipedia summary payload (forwarded unchanged). -/
structure WikiData where
  raw : String
deriving DecidableEq

/-- The upstream interactions the handler can perform, in the order the
source issues them. The dataset read is the local CSV stream; the two AQI
fetches are issued by the un-awaited async task started at src/server.js
lines 254-257. -/
inductive UpstreamCall where
  | nominatim
  | weather
  | datasetRead
  | waqi
  | aqiHistory
  | overpassInfra
  | overpassWater
  | wikipedia
deriving DecidableEq

/-- The per-request outcomes of every external dependency, supplied as input
to the handler embedding. `aqiTaskDone` is the scheduling outcome of the
un-awaited async task of src/server.js lines 254-257: whether its assignment
to `airQualityString` has run by the time `res.json` executes. -/
structure Env where
  nominatim : FetchOutcome (List CityResult)
  weather : FetchOutcome WeatherData
  rows : List Row
  waqi : FetchOutcome WAQIResponse
  aqiHist : FetchOutcome (Option HourlyData)
  infraEndpoints : List (AttemptOutcome (List Element))
  waterEndpoints : List (AttemptOutcome (List Element))
  wiki : FetchOutcome WikiData
  aqiTaskDone : Bool

/-- The value of the response's `airQuality` field: the handler initializes
`airQualityString` to the empty string and an un-awaited task later
overwrites it with the AQI section object, so the serialized field is one
or the other. -/
inductive AirQualityValue where
  | str (s : String)
  | sectionObj (s : AQISection)
deriving DecidableEq

/-- The successful response body assembled at src/server.js lines 370-384. -/
structure Report where
  cityName : String
  displayName : String
  lat : Option Int
  lon : Option Int
  population : Int
  area : Int
  weather : WeatherData
  airQuality : AirQualityValue
  infrastructure : Infrastructure
  waterBodies : WaterBodies
  wikipedia : WikiData
deriving DecidableEq

/-- A response body: an error object `{error: msg}` or the full report. -/
inductive ResponseBody where
  | error (msg : String)
  | report (r : Report)
deriving DecidableEq

/-- An HTTP response as the handler sends it. -/
structure HttpResponse where
  status : Nat
  body : ResponseBody
deriving DecidableEq

/-- The message attached to each dataset-lookup rejection
(src/server.js lines 146 and 150). -/
def lookupErrorMessage : LookupError → String
  | .noLocationData => "No matching state, district, or city found"
  | .streamError msg => msg

/-- Embedding of the `GET /api` handler (src/server.js lines 67-390) as a
function of the query parameter and the environment outcomes, returning the
response together with the list of upstream interactions performed. A missing
or empty `city` is falsy (`!cityName`) and is rejected with 400 before any
upstream call; every caught error maps to a 500 with the error's message. -/
def handler (cityParam : Option String) (env : Env) :
    HttpResponse × List UpstreamCall :=
  if cityParam = none ∨ cityParam = some "" then
    (⟨400, .error "City is required"⟩, [])
  else
    let cityName := cityParam.getD ""
    match env.nominatim with
    | .throw msg => (⟨500, .error msg⟩, [.nominatim])
    | .ok results =>
      match results.head? with
      | none => (⟨500, .error "City not found"⟩, [.nominatim])
      | some city =>
        match env.weather with
        | .throw msg => (⟨500, .error msg⟩, [.nominatim, .weather])
        | .ok w =>
          let shortName := jsTrim (splitFirstSegment city.display_name)
          match getLocationStats env.rows shortName with
          | .error e =>
            (⟨500, .error (lookupErrorMessage e)⟩,
              [.nominatim, .weather, .datasetRead])
          | .ok stats =>
            match fetchOverpass env.infraEndpoints with
            | .error _ =>
              (⟨500, .error "All Overpass endpoints failed"⟩,
                [.nominatim, .weather, .datasetRead, .waqi, .aqiHistory,
                  .overpassInfra])
            | .ok infraElements =>
              match fetchOverpass env.waterEndpoints with
              | .error _ =>
                (⟨500, .error "All Overpass endpoints failed"⟩,
                  [.nominatim, .weather, .datasetRead, .waqi, .aqiHistory,
                    .overpassInfra, .overpassWater])
              | .ok waterElements =>
                match env.wiki with
                | .throw msg =>
                  (⟨500, .error msg⟩,
                    [.nominatim, .weather, .datasetRead, .waqi, .aqiHistory,
                      .overpassInfra, .overpassWater, .wikipedia])
                | .ok wk =>
                  let aq : AirQualityValue :=
                    if env.aqiTaskDone then
                      .sectionObj (getAQISection env.waqi env.aqiHist)
                    else .str ""
                  (⟨200, .report
                      { cityName := cityName
                        displayName := city.display_name
                        lat := jsNumber (some city.lat)
                        lon := jsNumber (some city.lon)
                        population := stats.population
                        area := stats.area
                        weather := w
                        airQuality := aq
                        infrastructure := infrastructure infraElements
                        waterBodies := waterBodies waterElements
                        wikipedia := wk }⟩,
                    [.nominatim, .weather, .datasetRead, .waqi, .aqiHistory,
                      .overpassInfra, .overpassWater, .wikipedia])

/-- An attempt outcome that `fetchOverpass` treats as a failure: a thrown
error or a non-success HTTP status (the code converts the latter into a
thrown error and catches both). -/
def attemptFailed {α : Type} : AttemptOutcome α → Bool
  | .throws => true
  | .httpError _ => true
  | .success _ => false

/-- The five infrastructure categories of the tally. -/
inductive InfraCategory where
  | hospitals
  | schools
  | colleges
  | railwayStations
  | metroStations
deriving DecidableEq

/-- The classification condition the `forEach` body applies for each
category (src/server.js lines 296-312), on the element's tags. -/
def matchesCategory : InfraCategory → Tags → Prop
  | .hospitals, t => t.amenity = some "hospital"
  | .schools, t => t.amenity = some "school"
  | .colleges, t => t.amenity = some "college"
  | .railwayStations, t =>
    t.railway = some "station" ∧ t.station ≠ some "subway"
  | .metroStations, t =>
    t.station = some "subway" ∨ t.railway = some "subway_entrance" ∨
      (t.publicTransport = some "station" ∧ t.subway = some "yes")

instance : ∀ (c : InfraCategory) (t : Tags), Decidable (matchesCategory c t)
  | .hospitals, t => inferInstanceAs (Decidable (t.amenity = some "hospital"))
  | .schools, t => inferInstanceAs (Decidable (t.amenity = some "school"))
  | .colleges, t => inferInstanceAs (Decidable (t.amenity = some "college"))
  | .railwayStations, _t => inferInstanceAs (Decidable (_ ∧ _))
  | .metroStations, _t => inferInstanceAs (Decidable (_ ∨ _ ∨ (_ ∧ _)))

/-- The name set of one category inside `InfraSets`. -/
def categoryList : InfraCategory → InfraSets → List String
  | .hospitals, s => s.hospitals
  | .schools, s => s.schools
  | .colleges, s => s.colleges
  | .railwayStations, s => s.railwayStations
  | .metroStations, s => s.metroStations

/-- Projection of a response body onto its report, when it is one. -/
def reportOf : ResponseBody → Option Report
  | .report r => some r
  | .error _ => none

/-- A concrete dataset row used by witness theorems. -/
def sampleMumbai : Row :=
  { City := some "Mumbai"
    District := some "Mumbai Suburban"
    State := some "Maharashtra"
    Population := some "12442373"
    Area := some "603" }

/-- A second concrete dataset row used by witness theorems. -/
def sampleDelhi : Row :=
  { City := some "Delhi"
    District := some "New Delhi"
    State := some "Delhi"
    Population := some "16787941"
    Area := some "1484" }

/-- An element with no tags at all (so no `name`). -/
def unnamedElement : Element := ⟨none⟩

/-- A concrete environment in which every section succeeds and the
un-awaited AQI task has not completed when `res.json` runs. -/
def sampleEnv : Env :=
  { nominatim := .ok [⟨"Delhi, India", "28", "77"⟩]
    weather := .ok ⟨"weather-payload"⟩
    rows := [sampleMumbai, sampleDelhi]
    waqi := .ok ⟨"ok", some ⟨some 42, none, some "pm25", some "2024-01-01"⟩⟩
    aqiHist := .ok (some ⟨["2024-01-01T00:00"], some [some 12]⟩)
    infraEndpoints := [.success []]
    waterEndpoints := [.success []]
    wiki := .ok ⟨"wiki-payload"⟩
    aqiTaskDone := false }

/-- The same environment with the AQI task completed before `res.json`. -/
def sampleEnvDone : Env :=
  { sampleEnv with aqiTaskDone := true }

/-- The completed-task environment with both AQI sub-calls failing. -/
def sampleEnvAQIFail : Env :=
  { sampleEnvDone with waqi := .throw "getaddrinfo ENOTFOUND api.waqi.info"
                       aqiHist := .throw "fetch failed" }

/-! ## Theorems -/

theorem fetchOverpass_ok_iff {α : Type} (outcomes : List (AttemptOutcome α))
    (r : α) :
    fetchOverpass outcomes = .ok r ↔
      ∃ i, ∃ h : i < outcomes.length,
        outcomes.get ⟨i, h⟩ = .success r ∧
        ∀ o ∈ outcomes.take i, attemptFailed o = true := by
  induction outcomes with
  | nil => simp [fetchOverpass]
  | cons o rest ih =>
    cases o with
    | success b =>
      simp only [fetchOverpass]
      constructor
      · intro h
        have hb : b = r := by simpa using h
        subst hb
        exact ⟨0, Nat.succ_pos _, rfl, by simp⟩
      · rintro ⟨i, hi, hget, hfail⟩
        cases i with
        | zero =>
          injection hget with hbr
          subst hbr
          rfl
        | succ j =>
          have hf := hfail (.success b) (by simp [List.take])
          simp [attemptFailed] at hf
    | throws =>
      simp only [fetchOverpass]
      rw [ih]
      constructor
      · rintro ⟨i, hi, hget, hfail⟩
        refine ⟨i + 1, Nat.succ_lt_succ hi, hget, ?_⟩
        intro x hx
        simp only [List.take, List.mem_cons] at hx
        rcases hx with rfl | hx
        · rfl
        · exact hfail x hx
      · rintro ⟨i, hi, hget, hfail⟩
        cases i with
        | zero => simp [List.get] at hget
        | succ j =>
          refine ⟨j, Nat.lt_of_succ_lt_succ hi, hget, ?_⟩
          intro x hx
          exact hfail x (by simp [List.take, hx])
    | httpError st =>
      simp only [fetchOverpass]
      rw [ih]
      constructor
      · rintro ⟨i, hi, hget, hfail⟩
        refine ⟨i + 1, Nat.succ_lt_succ hi, hget, ?_⟩
        intro x hx
        simp only [List.take, List.mem_cons] at hx
        rcases hx with rfl | hx
        · rfl
        · exact hfail x hx
      · rintro ⟨i, hi, hget, hfail⟩
        cases i with
        | zero => simp [List.get] at hget
        | succ j =>
          refine ⟨j, Nat.lt_of_succ_lt_succ hi, hget, ?_⟩
          intro x hx
          exact hfail x (by simp [List.take, hx])

theorem fetchOverpass_error_iff {α : Type}
    (outcomes : List (AttemptOutcome α)) :
    fetchOverpass outcomes = .error .allEndpointsFailed ↔
      ∀ o ∈ outcomes, attemptFailed o = true := by
  induction outcomes with
  | nil => simp [fetchOverpass]
  | cons o rest ih =>
    cases o with
    | success b => simp [fetchOverpass, attemptFailed]
    | throws => simp [fetchOverpass, attemptFailed, ih]
    | httpError st => simp [fetchOverpass, attemptFailed, ih]

theorem fetchOverpass_append_success {α : Type}
    (pre : List (AttemptOutcome α)) (r : α)
    (hfail : ∀ o ∈ pre, attemptFailed o = true) :
    fetchOverpass (pre ++ [.success r]) = .ok r ∧
    overpassAttemptCount (pre ++ [.success r]) = pre.length + 1 := by
  induction pre with
  | nil => simp [fetchOverpass, overpassAttemptCount]
  | cons o rest ih =>
    have ho := hfail o (by simp)
    have hrest : ∀ x ∈ rest, attemptFailed x = true := fun x hx =>
      hfail x (by simp [hx])
    obtain ⟨h1, h2⟩ := ih hrest
    cases o with
    | success b => simp [attemptFailed] at ho
    | throws =>
      refine ⟨h1, ?_⟩
      show 1 + overpassAttemptCount (rest ++ [AttemptOutcome.success r]) =
        rest.length + 1 + 1
      rw [h2]
      omega
    | httpError st =>
      refine ⟨h1, ?_⟩
      show 1 + overpassAttemptCount (rest ++ [AttemptOutcome.success r]) =
        rest.length + 1 + 1
      rw [h2]
      omega

theorem overpassAttemptCount_le {α : Type}
    (outcomes : List (AttemptOutcome α)) :
    overpassAttemptCount outcomes ≤ outcomes.length := by
  induction outcomes with
  | nil => simp [overpassAttemptCount]
  | cons o rest ih =>
    cases o <;> simp [overpassAttemptCount] <;> omega

theorem fetchOverpass_total {α : Type} (outcomes : List (AttemptOutcome α)) :
    (∃ r, fetchOverpass outcomes = .ok r) ∨
      fetchOverpass outcomes = .error .allEndpointsFailed := by
  cases h : fetchOverpass outcomes with
  | ok r => exact Or.inl ⟨r, rfl⟩
  | error e => cases e; exact Or.inr rfl

/-- Claim C4: `fetchOverpass` attempts endpoints in list order at most once
each, treats any thrown error or non-success HTTP status as a non-fatal
attempt failure, returns the parsed response of the first succeeding
endpoint (in particular, if only the last endpoint succeeds the result is
that endpoint's response, after attempting every earlier endpoint exactly
once), raises the all-endpoints-failed error exactly when every candidate
fails, and never returns a partial or undefined result. -/
theorem fetchOverpass_spec :
    (∀ (α : Type) (outcomes : List (AttemptOutcome α)) (r : α),
      fetchOverpass outcomes = .ok r ↔
        ∃ i, ∃ h : i < outcomes.length,
          outcomes.get ⟨i, h⟩ = .success r ∧
          ∀ o ∈ outcomes.take i, attemptFailed o = true) ∧
    (∀ (α : Type) (outcomes : List (AttemptOutcome α)),
      fetchOverpass outcomes = .error .allEndpointsFailed ↔
        ∀ o ∈ outcomes, attemptFailed o = true) ∧
    (∀ (α : Type) (pre : List (AttemptOutcome α)) (r : α),
      (∀ o ∈ pre, attemptFailed o = true) →
        fetchOverpass (pre ++ [.success r]) = .ok r ∧
        overpassAttemptCount (pre ++ [.success r]) = pre.length + 1) ∧
    (∀ (α : Type) (outcomes : List (AttemptOutcome α)),
      overpassAttemptCount outcomes ≤ outcomes.length) ∧
    (∀ (α : Type) (outcomes : List (AttemptOutcome α)),
      (∃ r, fetchOverpass outcomes = .ok r) ∨
        fetchOverpass outcomes = .error .allEndpointsFailed) :=
  ⟨fun _ => fetchOverpass_ok_iff, fun _ => fetchOverpass_error_iff,
    fun _ => fetchOverpass_append_success, fun _ => overpassAttemptCount_le,
    fun _ => fetchOverpass_total⟩

/-- Witness for C4: two failing endpoints followed by a succeeding one —
the result is the last endpoint's response and all three are attempted. -/
theorem fetchOverpass_spec_witness :
    (∀ o ∈ [AttemptOutcome.throws, AttemptOutcome.httpError 503],
      attemptFailed (α := List Element) o = true) ∧
    fetchOverpass ([AttemptOutcome.throws, AttemptOutcome.httpError 503] ++
      [AttemptOutcome.success ([] : List Element)]) = .ok [] ∧
    overpassAttemptCount ([AttemptOutcome.throws, AttemptOutcome.httpError 503] ++
      [AttemptOutcome.success ([] : List Element)]) = 3 := by
  have h := fetchOverpass_spec.2.2.1 (List Element)
    [AttemptOutcome.throws, AttemptOutcome.httpError 503] [] (by decide)
  exact ⟨by decide, h.1, h.2⟩

/-- Claim C5: `categorizeAQI` is a pure function with exact boundaries —
`v ≤ 50` gives Good, `v ≤ 100` Moderate, `v ≤ 150` Unhealthy for Sensitive
Groups, `v ≤ 200` Unhealthy, `v ≤ 300` Very Unhealthy, larger values
Hazardous; severity is monotonically non-decreasing in `v`; and a null AQI
maps to the no-data category. -/
theorem categorizeAQI_spec :
    categorizeAQI none = "No data" ∧
    (∀ v : Int, categorizeAQI (some v) = "Good" ↔ v ≤ 50) ∧
    (∀ v : Int, categorizeAQI (some v) = "Moderate" ↔ 50 < v ∧ v ≤ 100) ∧
    (∀ v : Int, categorizeAQI (some v) = "Unhealthy for Sensitive Groups" ↔
      100 < v ∧ v ≤ 150) ∧
    (∀ v : Int, categorizeAQI (some v) = "Unhealthy" ↔ 150 < v ∧ v ≤ 200) ∧
    (∀ v : Int, categorizeAQI (some v) = "Very Unhealthy" ↔
      200 < v ∧ v ≤ 300) ∧
    (∀ v : Int, categorizeAQI (some v) = "Hazardous" ↔ 300 < v) ∧
    (∀ v w : Int, v ≤ w →
      severity (categorizeAQI (some v)) ≤ severity (categorizeAQI (some w))) := by
  refine ⟨rfl, ?_, ?_, ?_, ?_, ?_, ?_, ?_⟩
  · intro v
    simp only [categorizeAQI]
    split_ifs <;> simp <;> omega
  · intro v
    simp only [categorizeAQI]
    split_ifs <;> simp <;> omega
  · intro v
    simp only [categorizeAQI]
    split_ifs <;> simp <;> omega
  · intro v
    simp only [categorizeAQI]
    split_ifs <;> simp <;> omega
  · intro v
    simp only [categorizeAQI]
    split_ifs <;> simp <;> omega
  · intro v
    simp only [categorizeAQI]
    split_ifs <;> simp <;> omega
  · intro v w hvw
    simp only [categorizeAQI]
    split_ifs <;> first | decide | (exfalso; omega)

/-- Witness for C5: the monotonicity conjunct applied at `0 ≤ 75`, and a
boundary conjunct applied at `75`. -/
theorem categorizeAQI_spec_witness :
    ((0 : Int) ≤ 75 ∧
      severity (categorizeAQI (some 0)) ≤ severity (categorizeAQI (some 75))) ∧
    (categorizeAQI (some 75) = "Moderate" ↔ 50 < (75 : Int) ∧ (75 : Int) ≤ 100) :=
  ⟨⟨by decide, categorizeAQI_spec.2.2.2.2.2.2.2 0 75 (by decide)⟩,
    categorizeAQI_spec.2.2.1 75⟩

theorem runStream_rows_ok_iff (nq : String) (rows : List Row)
    (res : LocationStats) :
    runStream nq (rows.map .row) = .ok res ↔
      ∃ i, ∃ h : i < rows.length,
        (∀ x ∈ rows.take i, matchRow nq x = none) ∧
        ∃ m, matchRow nq (rows.get ⟨i, h⟩) = some m ∧
          res = statsOfMatch (rows.get ⟨i, h⟩) m := by
  induction rows with
  | nil => simp [runStream]
  | cons p ps ih =>
    show runStream nq (.row p :: ps.map .row) = .ok res ↔ _
    rcases hp : matchRow nq p with _ | m
    · rw [show runStream nq (.row p :: ps.map .row) =
        runStream nq (ps.map .row) from by simp [runStream, hp]]
      rw [ih]
      constructor
      · rintro ⟨i, hi, hpre, m, hm, hres⟩
        refine ⟨i + 1, Nat.succ_lt_succ hi, ?_, m, hm, hres⟩
        intro x hx
        simp only [List.take, List.mem_cons] at hx
        rcases hx with rfl | hx
        · exact hp
        · exact hpre x hx
      · rintro ⟨i, hi, hpre, m, hm, hres⟩
        cases i with
        | zero =>
          rw [show (p :: ps).get ⟨0, hi⟩ = p from rfl, hp] at hm
          cases hm
        | succ j =>
          exact ⟨j, Nat.lt_of_succ_lt_succ hi,
            fun x hx => hpre x (by simp [List.take, hx]), m, hm, hres⟩
    · rw [show runStream nq (.row p :: ps.map .row) =
        .ok (statsOfMatch p m) from by simp [runStream, hp]]
      constructor
      · intro h
        have hres : statsOfMatch p m = res := by injection h
        exact ⟨0, Nat.succ_pos _, by simp, m, hp, hres.symm⟩
      · rintro ⟨i, hi, hpre, m', hm', hres⟩
        cases i with
        | zero =>
          rw [show (p :: ps).get ⟨0, hi⟩ = p from rfl] at hm' hres
          rw [hp] at hm'
          injection hm' with hmm
          subst hmm
          rw [hres]
        | succ j =>
          have hc := hpre p (by simp [List.take])
          rw [hp] at hc
          cases hc

/-- Claim C2: the dataset lookup is deterministic and first-match-wins — it
resolves on the earliest row (in file order) whose lowercased, trimmed City,
District, or State field equals the lowercased, trimmed query, with field
priority City before District before State within a row, and repeated calls
with the same rows and query return the same result. -/
theorem getLocationStats_first_match_wins :
    (∀ (rows : List Row) (q : String) (res : LocationStats),
      getLocationStats rows q = .ok res ↔
        ∃ i, ∃ h : i < rows.length,
          (∀ x ∈ rows.take i, matchRow (jsToLower (jsTrim q)) x = none) ∧
          ∃ m, matchRow (jsToLower (jsTrim q)) (rows.get ⟨i, h⟩) = some m ∧
            res = statsOfMatch (rows.get ⟨i, h⟩) m) ∧
    (∀ (r : Row) (nq : String),
      (normField r.City = some nq →
        matchRow nq r = some (.city, r.City)) ∧
      (normField r.City ≠ some nq → normField r.District = some nq →
        matchRow nq r = some (.district, r.District)) ∧
      (normField r.City ≠ some nq → normField r.District ≠ some nq →
        normField r.State = some nq →
        matchRow nq r = some (.state, r.State))) ∧
    (∀ (rows : List Row) (q : String) (res res' : LocationStats),
      getLocationStats rows q = .ok res → getLocationStats rows q = .ok res' →
        res = res') := by
  refine ⟨?_, ?_, ?_⟩
  · intro rows q res
    exact runStream_rows_ok_iff (jsToLower (jsTrim q)) rows res
  · intro r nq
    refine ⟨?_, ?_, ?_⟩
    · intro h1
      simp [matchRow, h1]
    · intro h1 h2
      simp [matchRow, h1, h2]
    · intro h1 h2 h3
      simp [matchRow, h1, h2, h3]
  · intro rows q res res' h h'
    rw [h] at h'
    injection h'

/-- Witness for C2: in a two-row dataset where the second row's City matches
`"Delhi"`, the lookup resolves on that row via the City field. -/
theorem getLocationStats_first_match_wins_witness :
    getLocationStats [sampleMumbai, sampleDelhi] "Delhi" =
      .ok (statsOfMatch sampleDelhi (.city, some "Delhi")) ∧
    matchRow "delhi" sampleDelhi = some (.city, some "Delhi") := by
  constructor
  · exact (getLocationStats_first_match_wins.1 [sampleMumbai, sampleDelhi]
      "Delhi" (statsOfMatch sampleDelhi (.city, some "Delhi"))).mpr
      ⟨1, by simp, by decide, (.city, some "Delhi"), by decide, by decide⟩
  · exact (getLocationStats_first_match_wins.2.1 sampleDelhi "delhi").1
      (by decide)

/-- Claim C3: the dataset lookup stops consuming the row stream at the first
matching row and never processes any later item — a malformed item after the
match cannot cause an error — and on a stream with no matching row the scan
reaches end-of-stream and fails with the no-location-data error. -/
theorem runStream_stops_at_first_match :
    (∀ (q : String) (pre : List Row) (r : Row) (m : MatchedOn × Option String)
      (tail : List StreamItem),
      (∀ x ∈ pre, matchRow q x = none) →
      matchRow q r = some m →
      runStream q (pre.map .row ++ .row r :: tail) =
        .ok (statsOfMatch r m) ∧
      rowsConsumed q (pre.map .row ++ .row r :: tail) = pre.length + 1) ∧
    (∀ (rows : List Row) (searchValue : String),
      (∀ x ∈ rows, matchRow (jsToLower (jsTrim searchValue)) x = none) →
      getLocationStats rows searchValue = .error .noLocationData) := by
  constructor
  · intro q pre r m tail hpre hm
    induction pre with
    | nil =>
      constructor
      · show runStream q (.row r :: tail) = _
        simp [runStream, hm]
      · show rowsConsumed q (.row r :: tail) = 1
        simp [rowsConsumed, hm]
    | cons p ps ih =>
      have hp : matchRow q p = none := hpre p (by simp)
      have hps : ∀ x ∈ ps, matchRow q x = none := fun x hx =>
        hpre x (by simp [hx])
      obtain ⟨h1, h2⟩ := ih hps
      constructor
      · show runStream q (.row p :: (ps.map .row ++ .row r :: tail)) = _
        simp [runStream, hp, h1]
      · show rowsConsumed q (.row p :: (ps.map .row ++ .row r :: tail)) =
          ps.length + 1 + 1
        simp only [rowsConsumed, hp, h2]
        omega
  · intro rows searchValue h
    show runStream (jsToLower (jsTrim searchValue)) (rows.map .row) = _
    induction rows with
    | nil => rfl
    | cons p ps ih =>
      have hp := h p (by simp)
      have hps : ∀ x ∈ ps, matchRow (jsToLower (jsTrim searchValue)) x = none :=
        fun x hx => h x (by simp [hx])
      show runStream (jsToLower (jsTrim searchValue))
        (.row p :: ps.map .row) = _
      simp [runStream, hp, ih hps]

/-- Witness for C3: a match on the second row resolves after consuming two
items even though a malformed item follows, and a query matching no row
rejects with the no-location-data error. -/
theorem runStream_stops_at_first_match_witness :
    ((∀ x ∈ [sampleMumbai], matchRow "delhi" x = none) ∧
      matchRow "delhi" sampleDelhi = some (.city, some "Delhi") ∧
      runStream "delhi" ([sampleMumbai].map .row ++
        .row sampleDelhi :: [.malformed "Unexpected token"]) =
        .ok (statsOfMatch sampleDelhi (.city, some "Delhi")) ∧
      rowsConsumed "delhi" ([sampleMumbai].map .row ++
        .row sampleDelhi :: [.malformed "Unexpected token"]) = 2) ∧
    ((∀ x ∈ [sampleMumbai, sampleDelhi],
        matchRow (jsToLower (jsTrim "Pune")) x = none) ∧
      getLocationStats [sampleMumbai, sampleDelhi] "Pune" =
        .error .noLocationData) := by
  constructor
  · have h := runStream_stops_at_first_match.1 "delhi" [sampleMumbai]
      sampleDelhi (.city, some "Delhi") [.malformed "Unexpected token"]
      (by decide) (by decide)
    exact ⟨by decide, by decide, h.1, h.2⟩
  · exact ⟨by decide, runStream_stops_at_first_match.2
      [sampleMumbai, sampleDelhi] "Pune" (by decide)⟩

theorem addName_mem (s : List String) (m n : String) :
    n ∈ addName s m ↔ n ∈ s ∨ n = m := by
  unfold addName
  split_ifs with h
  · constructor
    · exact Or.inl
    · rintro (hn | rfl)
      · exact hn
      · exact h
  · simp

theorem addName_nodup (s : List String) (m : String) (h : s.Nodup) :
    (addName s m).Nodup := by
  unfold addName
  split_ifs with hm
  · exact h
  · simp [List.nodup_append, h, hm]

theorem processElement_categoryList_none (c : InfraCategory)
    (acc : InfraSets) (el : Element) (h : (tagsOf el).name = none) :
    categoryList c (processElement acc el) = categoryList c acc := by
  cases c <;> simp [processElement, h, categoryList]

theorem processElement_categoryList_some (c : InfraCategory)
    (acc : InfraSets) (el : Element) (n : String)
    (h : (tagsOf el).name = some n) :
    categoryList c (processElement acc el) =
      if n = "" then categoryList c acc
      else if matchesCategory c (tagsOf el) then
        addName (categoryList c acc) n
      else categoryList c acc := by
  by_cases hn : n = ""
  · subst hn
    rw [if_pos rfl]
    cases c <;> simp [processElement, h, categoryList]
  · rw [if_neg hn]
    cases c <;>
      · simp only [processElement, h, categoryList, matchesCategory,
          if_neg hn]
        split_ifs <;> rfl

theorem processElement_falsy_name (acc : InfraSets) (el : Element)
    (h : (tagsOf el).name = none ∨ (tagsOf el).name = some "") :
    processElement acc el = acc := by
  rcases h with h | h
  · simp [processElement, h]
  · simp [processElement, h]

theorem infraOf_foldl_mem (c : InfraCategory) (n : String)
    (els : List Element) (acc : InfraSets) :
    n ∈ categoryList c (els.foldl processElement acc) ↔
      n ∈ categoryList c acc ∨
        ∃ el ∈ els, (tagsOf el).name = some n ∧ n ≠ "" ∧
          matchesCategory c (tagsOf el) := by
  induction els generalizing acc with
  | nil => simp
  | cons e es ih =>
    rw [List.foldl_cons, ih]
    have hstep : n ∈ categoryList c (processElement acc e) ↔
        n ∈ categoryList c acc ∨
          ((tagsOf e).name = some n ∧ n ≠ "" ∧
            matchesCategory c (tagsOf e)) := by
      rcases hname : (tagsOf e).name with _ | m
      · rw [processElement_categoryList_none c acc e hname]
        simp
      · rw [processElement_categoryList_some c acc e m hname]
        by_cases hm : m = ""
        · subst hm
          rw [if_pos rfl]
          constructor
          · exact Or.inl
          · rintro (h | ⟨heq, hne, _⟩)
            · exact h
            · injection heq with heq
              exact absurd heq.symm hne
        · rw [if_neg hm]
          split_ifs with hc
          · rw [addName_mem]
            constructor
            · rintro (hn | rfl)
              · exact Or.inl hn
              · exact Or.inr ⟨rfl, hm, hc⟩
            · rintro (hn | ⟨hmn, _, _⟩)
              · exact Or.inl hn
              · injection hmn with hmn
                exact Or.inr hmn.symm
          · constructor
            · exact Or.inl
            · rintro (hn | ⟨_, _, hc'⟩)
              · exact hn
              · exact absurd hc' hc
    rw [hstep]
    simp only [List.mem_cons]
    constructor
    · rintro ((hn | he) | ⟨el, hel, hp⟩)
      · exact Or.inl hn
      · exact Or.inr ⟨e, Or.inl rfl, he⟩
      · exact Or.inr ⟨el, Or.inr hel, hp⟩
    · rintro (hn | ⟨el, (rfl | hel), hp⟩)
      · exact Or.inl (Or.inl hn)
      · exact Or.inl (Or.inr hp)
      · exact Or.inr ⟨el, hel, hp⟩

theorem infraOf_foldl_nodup (c : InfraCategory) (els : List Element)
    (acc : InfraSets) (h : (categoryList c acc).Nodup) :
    (categoryList c (els.foldl processElement acc)).Nodup := by
  induction els generalizing acc with
  | nil => exact h
  | cons e es ih =>
    rw [List.foldl_cons]
    refine ih _ ?_
    rcases hname : (tagsOf e).name with _ | m
    · rw [processElement_categoryList_none c acc e hname]
      exact h
    · rw [processElement_categoryList_some c acc e m hname]
      split_ifs with h1 h2
      · exact h
      · exact addName_nodup _ _ h
      · exact h

/-- Claim C6: each category's name list is the set of distinct raw
(case-sensitive) name strings of the points matching that category — a
name is in the list exactly when some element carries it (as a non-empty,
truthy, string) and matches, the list never repeats a name (so two elements
with identical name and category contribute one entry, to the list and
hence to the count, which is its length), and an element lacking a name tag
— absent or the falsy empty string, per `if (!t.name) return;` — leaves the
tally unchanged. -/
theorem infrastructure_dedup_by_name :
    (∀ (elements : List Element) (c : InfraCategory) (n : String),
      n ∈ categoryList c (infrastructure elements).names ↔
        ∃ el ∈ elements, (tagsOf el).name = some n ∧ n ≠ "" ∧
          matchesCategory c (tagsOf el)) ∧
    (∀ (elements : List Element) (c : InfraCategory),
      (categoryList c (infrastructure elements).names).Nodup) ∧
    (∀ (acc : InfraSets) (el : Element),
      (tagsOf el).name = none ∨ (tagsOf el).name = some "" →
      processElement acc el = acc) := by
  refine ⟨?_, ?_, processElement_falsy_name⟩
  · intro elements c n
    have h := infraOf_foldl_mem c n elements emptyInfra
    rw [show categoryList c (infrastructure elements).names =
      categoryList c (elements.foldl processElement emptyInfra) from rfl, h]
    have : ¬ n ∈ categoryList c emptyInfra := by
      cases c <;> simp [emptyInfra, categoryList]
    simp [this]
  · intro elements c
    refine infraOf_foldl_nodup c elements emptyInfra ?_
    cases c <;> simp [emptyInfra, categoryList]

/-- Witness for C6: an element with no tags, and a hospital element whose
name tag is the falsy empty string, both leave the accumulated sets
unchanged; the membership characterization applied at a concrete element. -/
theorem infrastructure_dedup_by_name_witness :
    ((tagsOf unnamedElement).name = none ∧
      processElement emptyInfra unnamedElement = emptyInfra) ∧
    processElement emptyInfra ⟨some ⟨some "", some "hospital", none, none,
      none, none, none⟩⟩ = emptyInfra ∧
    ("AIIMS" ∈ categoryList .hospitals
      (infrastructure [⟨some ⟨some "AIIMS", some "hospital", none, none,
        none, none, none⟩⟩]).names ↔
      ∃ el ∈ [(⟨some ⟨some "AIIMS", some "hospital", none, none, none, none,
        none⟩⟩ : Element)], (tagsOf el).name = some "AIIMS" ∧
        "AIIMS" ≠ "" ∧ matchesCategory .hospitals (tagsOf el)) := by
  refine ⟨⟨rfl, infrastructure_dedup_by_name.2.2 emptyInfra unnamedElement
      (Or.inl rfl)⟩,
    infrastructure_dedup_by_name.2.2 emptyInfra _ (Or.inr rfl),
    infrastructure_dedup_by_name.1 _ .hospitals "AIIMS"⟩

/-- Claim C7: a name enters the railway-stations set exactly when some
element carries it (as a non-empty, truthy, string — the falsy-name guard
drops empty names before classification) with `railway=station` and a
`station` tag other than `subway`; it enters the metro-stations set exactly
when some element carries it with `station=subway`, or
`railway=subway_entrance`, or both `public_transport=station` and
`subway=yes`. -/
theorem station_classification_rules :
    (∀ (elements : List Element) (n : String),
      n ∈ (infraOf elements).railwayStations ↔
        ∃ el ∈ elements, (tagsOf el).name = some n ∧ n ≠ "" ∧
          (tagsOf el).railway = some "station" ∧
          (tagsOf el).station ≠ some "subway") ∧
    (∀ (elements : List Element) (n : String),
      n ∈ (infraOf elements).metroStations ↔
        ∃ el ∈ elements, (tagsOf el).name = some n ∧ n ≠ "" ∧
          ((tagsOf el).station = some "subway" ∨
            (tagsOf el).railway = some "subway_entrance" ∨
            ((tagsOf el).publicTransport = some "station" ∧
              (tagsOf el).subway = some "yes"))) := by
  constructor
  · intro elements n
    have h := infraOf_foldl_mem .railwayStations n elements emptyInfra
    rw [show (infraOf elements).railwayStations =
      categoryList .railwayStations
        (elements.foldl processElement emptyInfra) from rfl, h]
    simp [emptyInfra, categoryList, matchesCategory]
  · intro elements n
    have h := infraOf_foldl_mem .metroStations n elements emptyInfra
    rw [show (infraOf elements).metroStations =
      categoryList .metroStations
        (elements.foldl processElement emptyInfra) from rfl, h]
    simp [emptyInfra, categoryList, matchesCategory]

/-- Witness for C7: a subway-entrance node lands in metro stations and a
mainline station lands in railway stations. -/
theorem station_classification_rules_witness :
    "Rajiv Chowk" ∈ (infraOf [⟨some ⟨some "Rajiv Chowk", none, some
      "subway_entrance", none, none, none, none⟩⟩]).metroStations ∧
    "New Delhi" ∈ (infraOf [⟨some ⟨some "New Delhi", none, some "station",
      none, none, none, none⟩⟩]).railwayStations := by
  constructor
  · exact (station_classification_rules.2 _ "Rajiv Chowk").mpr
      ⟨⟨some ⟨some "Rajiv Chowk", none, some "subway_entrance", none, none,
        none, none⟩⟩, by simp, rfl, by decide, Or.inr (Or.inl rfl)⟩
  · exact (station_classification_rules.1 _ "New Delhi").mpr
      ⟨⟨some ⟨some "New Delhi", none, some "station", none, none, none,
        none⟩⟩, by simp, rfl, by decide, rfl, by decide⟩

/-- Claim C9: in the assembled response, each numeric count equals the
length of its corresponding name list — the five infrastructure category
counts and the two water-body counts. -/
theorem counts_equal_name_list_lengths :
    ∀ (infraElements waterElements : List Element),
      (infrastructure infraElements).hospitals =
        (infrastructure infraElements).names.hospitals.length ∧
      (infrastructure infraElements).schools =
        (infrastructure infraElements).names.schools.length ∧
      (infrastructure infraElements).colleges =
        (infrastructure infraElements).names.colleges.length ∧
      (infrastructure infraElements).railwayStations =
        (infrastructure infraElements).names.railwayStations.length ∧
      (infrastructure infraElements).metroStations =
        (infrastructure infraElements).names.metroStations.length ∧
      (waterBodies waterElements).rivers.count =
        (waterBodies waterElements).rivers.names.length ∧
      (waterBodies waterElements).otherWaterBodies.count =
        (waterBodies waterElements).otherWaterBodies.names.length :=
  fun _ _ => ⟨rfl, rfl, rfl, rfl, rfl, rfl, rfl⟩

/-- Claim C10: for every matched dataset row the returned population and
area are always numbers — a missing Population or Area field, an
empty-string field, or a non-numeric field (whose `Number` conversion is
`NaN`) yields `0`, and the match decision is independent of the Population
and Area fields, so such a row never fails the lookup. -/
theorem locationStats_numeric_fallback :
    (∀ (r : Row) (m : MatchedOn × Option String),
      r.Population = none ∨ jsNumber r.Population = none ∨
        jsNumber r.Population = some 0 →
      (statsOfMatch r m).population = 0) ∧
    (∀ (r : Row) (m : MatchedOn × Option String),
      r.Area = none ∨ jsNumber r.Area = none ∨ jsNumber r.Area = some 0 →
      (statsOfMatch r m).area = 0) ∧
    (∀ (q : String) (r : Row) (p a : Option String),
      matchRow q { r with Population := p, Area := a } = matchRow q r) := by
  refine ⟨?_, ?_, ?_⟩
  · intro r m h
    rcases h with h | h | h
    · simp [statsOfMatch, h, jsNumber]
    · simp [statsOfMatch, h]
    · simp [statsOfMatch, h]
  · intro r m h
    rcases h with h | h | h
    · simp [statsOfMatch, h, jsNumber]
    · simp [statsOfMatch, h]
    · simp [statsOfMatch, h]
  · intro q r p a
    cases r
    rfl

/-- Witness for C10: a non-numeric Population (`"N/A"`), an absent Area,
and a match decision unchanged by blanking both fields. -/
theorem locationStats_numeric_fallback_witness :
    (jsNumber (some "N/A") = none ∧
      (statsOfMatch ⟨some "X", none, none, some "N/A", none⟩
        (.city, some "X")).population = 0) ∧
    ((⟨some "X", none, none, some "N/A", none⟩ : Row).Area = none ∧
      (statsOfMatch ⟨some "X", none, none, some "N/A", none⟩
        (.city, some "X")).area = 0) ∧
    matchRow "x" { (⟨some "X", none, none, some "1", some "2"⟩ : Row) with
      Population := none, Area := none } =
      matchRow "x" ⟨some "X", none, none, some "1", some "2"⟩ := by
  refine ⟨⟨by decide, ?_⟩, ⟨rfl, ?_⟩, ?_⟩
  · exact locationStats_numeric_fallback.1 _ _ (Or.inr (Or.inl (by decide)))
  · exact locationStats_numeric_fallback.2.1 _ _ (Or.inl rfl)
  · exact locationStats_numeric_fallback.2.2 "x" _ none none

/-- Claim C8: a request whose `city` query parameter is absent or empty is
answered with status 400 and the error body before any upstream interaction
— no geocoding, weather, dataset, AQI, geospatial, or encyclopedia fetch is
performed. -/
theorem handler_missing_city_no_calls :
    ∀ (cityParam : Option String) (env : Env),
      cityParam = none ∨ cityParam = some "" →
      handler cityParam env = (⟨400, .error "City is required"⟩, []) := by
  intro c env h
  unfold handler
  rw [if_pos h]

/-- Witness for C8: the absent-parameter case on a fully healthy
environment. -/
theorem handler_missing_city_no_calls_witness :
    ((none : Option String) = none ∨ (none : Option String) = some "") ∧
    handler none sampleEnv = (⟨400, .error "City is required"⟩, []) :=
  ⟨Or.inl rfl, handler_missing_city_no_calls none sampleEnv (Or.inl rfl)⟩

/-- Claim C1 (refuted as stated — the code has a bug): the AQI sub-calls do
degrade independently to the no-data reading and the empty history, but the
handler assigns the response's `airQuality` field from an un-awaited async
task whose result variable is initialized to the empty string, so in a
request where every section succeeds and that task has not completed when
`res.json` runs, the response succeeds with status 200 while its
`airQuality` field is the string `""` rather than the well-formed
`{currentAQI, history}` object; the same request with the task completed
carries the object. -/
theorem airQuality_field_race :
    (handler (some "Delhi") sampleEnv).1.status = 200 ∧
    (reportOf (handler (some "Delhi") sampleEnv).1.body).map
      Report.airQuality = some (.str "") ∧
    (reportOf (handler (some "Delhi") sampleEnvDone).1.body).map
      Report.airQuality =
      some (.sectionObj (getAQISection sampleEnv.waqi sampleEnv.aqiHist)) ∧
    (handler (some "Delhi") sampleEnvAQIFail).1.status = 200 ∧
    (reportOf (handler (some "Delhi") sampleEnvAQIFail).1.body).map
      Report.airQuality = some (.sectionObj ⟨noDataReading, []⟩) ∧
    getCurrentAQI (.throw "network error") = noDataReading ∧
    getCurrentAQI (.ok ⟨"error", none⟩) = noDataReading ∧
    getAQIHistory (.throw "network error") = [] := by
  refine ⟨?_, ?_, ?_, ?_, ?_, rfl, by decide, rfl⟩
  · decide
  · decide
  · decide
  · decide
  · decide

end CityData
